import Mathlib

/-!
Shallow embedding of the Grawlix firmware (grawlix.ino and its two sibling
revisions) covering: the Phoneme payload encoder, mode resolution
(`updateMode`), the phrase-source dispatch in `main`, the per-phoneme chip
transmission trace in `say`/`shiftUpdate`/`strobe`, the advance gate
(`advListen`), the random and grid phrase generators, the `setFromMemory`
stub, and the HardwarePWM clock generator (`setFreq`/`setPulseWidth`).
Machine integers are modelled as Nat/Int with explicit wrap-around where the
C code relies on it; uninitialized or undefined-behavior outcomes are
modelled with Option.
-/

namespace Grawlix

/-- Empty string constant, the default value of an Arduino `String`. -/
def emptySym : String := ""

/-- The 64-entry Votrax SC-01 vocabulary, `const String validSymbols[64]`
(grawlix.ino lines 59-68). -/
def validSymbols : List String := [
  "EH3", "EH2", "EH1", "PA0", "DT", "A2", "A1", "ZH",
  "AH2", "I3", "I2", "I1", "M", "N", "B", "V",
  "CH", "SH", "Z", "AW1", "NG", "AH1", "OO1", "OO",
  "L", "K", "J", "H", "G", "F", "D", "S",
  "A", "AY", "Y1", "UH3", "AH", "P", "O", "I",
  "U", "Y", "T", "R", "E", "W", "AE", "AE1",
  "AW2", "UH2", "UH1", "UH", "O2", "O1", "IU", "U1",
  "THV", "TH", "ER", "EH", "E1", "AW", "PA1", "STOP"]

/-- The fixed 8x5 phoneme-code grid, `const int vowelGrid[8][5]`
(grawlix.ino lines 71-80). -/
def vowelGrid : List (List Nat) := [
  [44, 59, 46, 51, 22],
  [60, 2, 47, 50, 43],
  [41, 1, 36, 49, 58],
  [34, 0, 21, 35, 24],
  [39, 32, 8, 38, 54],
  [11, 6, 61, 53, 40],
  [10, 5, 19, 52, 55],
  [9, 33, 48, 23, 45]]

/-- Arduino `String::operator[]` (`charAt`): the character code at index `i`,
or 0 when `i` is out of range.  The result is returned as Int because the C
expression `inflection == symbol[i]` promotes the char to int. -/
def charAt (s : String) (i : Nat) : Int :=
  match s.toList.get? i with
  | some c => (c.toNat : Int)
  | none => 0

/-- The `symbolIndex` loop of the `Phoneme` constructor (grawlix.ino lines
174-176): `for (i = 0; i < 64; i++) symbolIndex = (inflection == symbol[i]) ? i : 3;'
starting from the field initializer `symbolIndex = 3`.  Note the code compares
the inflection integer with the i-th character of the symbol string; it never
reads `validSymbols`, and each iteration overwrites the previous result. -/
def phonemeSymbolIndex (symbol : String) (inflection : Int) : Nat :=
  (List.range 64).foldl (fun _prev i => if inflection = charAt symbol i then i else 3) 3

/-- Inflection validation in the `Phoneme` constructor (line 177):
`inflectionIndex = (inflection >= 0 && inflection <= 3) ? inflection : 0;`. -/
def phonemeInflectionIndex (inflection : Int) : Int :=
  if 0 ≤ inflection ∧ inflection ≤ 3 then inflection else 0

/-- The `payload` computed by the `Phoneme` constructor (lines 178-179):
`payload = inflectionIndex << 6; payload = payload | symbolIndex;` stored in a
`byte`, hence the mod 256. -/
def phonemePayload (symbol : String) (inflection : Int) : Nat :=
  let si := phonemeSymbolIndex symbol inflection
  let ii := (phonemeInflectionIndex inflection).toNat
  let p1 := (ii <<< 6) % 256
  (p1 ||| si) % 256

/-- Modelled from the spec: the canonical symbol lookup the spec describes for
PhonemeCodec — the symbol's index in the 64-entry `validSymbols` vocabulary,
defaulting to index 3 when the name is not found.  Used only to compare the
spec's claimed encoder against the code's actual one. -/
def specSymbolIndex (symbol : String) : Nat :=
  if symbol ∈ validSymbols then validSymbols.indexOf symbol else 3

/-- Modelled from the spec: the claimed payload
`(inflectionIndex << 6) | canonicalSymbolIndex`. -/
def specPayload (symbol : String) (inflection : Int) : Nat :=
  (((phonemeInflectionIndex inflection).toNat <<< 6) ||| specSymbolIndex symbol) % 256

/-- Named constant for the vocabulary entry at index 0, used as a concrete
test input. -/
def symEH3 : String := "EH3"

/-- The member fields of the `Grawlix` class that `updateMode` could touch. -/
structure GrawlixState where
  phonemeMode : Int
  advanceMode : Int
  memoryIndex : Int
deriving DecidableEq

/-- The computation `updateMode` performs on its local, by-value `mode`
parameter (grawlix.ino lines 104-109): three sequential `if` statements
assigning 1, 2 or 3; `(true,true)` leaves the local value unchanged. -/
def updateModeLocal (mode : Int) (a b : Bool) : Int :=
  let m1 := if !a && !b then 1 else mode
  let m2 := if a && !b then 2 else m1
  let m3 := if !a && b then 3 else m2
  m3

/-- The full effect of calling `Grawlix::updateMode(mode, a, b)`: the `mode`
parameter is passed by value, the three `if`s assign only that local copy,
no member of the object is written, and the function (declared `int`) has no
return statement — callers discard the (undefined) return value.  The first
component is the object state after the call; the second is the final value
of the local `mode`, which never escapes. -/
def updateMode (s : GrawlixState) (mode : Int) (a b : Bool) : GrawlixState × Int :=
  (s, updateModeLocal mode a b)

/-- The phoneme-source mode value `main` actually dispatches on
(grawlix.ino lines 254-255): it calls `updateMode(phonemeMode, ...)` and then
runs `switch (phonemeMode)` on the member field. -/
def mainModeUsed (s : GrawlixState) (a b : Bool) : Int :=
  ((updateMode s s.phonemeMode a b).1).phonemeMode

/-- The three phrase generators `main` can invoke. -/
inductive PhraseSourceKind
  | memory
  | grid
  | random
deriving DecidableEq

/-- The sequence of phrase-source bodies executed by the `switch (phonemeMode)`
in `Grawlix::main` of grawlix.ino (lines 255-265), whose cases have no
`break`: control enters at the matching case and falls through every later
case body, so case 2's body runs when the mode is 1 or 2, and case 3's body
runs when the mode is 1, 2 or 3. -/
def mainSourcesIno (mode : Int) : List PhraseSourceKind :=
  (if mode = 1 then [PhraseSourceKind.memory] else []) ++
    (if mode = 1 ∨ mode = 2 then [PhraseSourceKind.grid] else []) ++
    (if mode = 1 ∨ mode = 2 ∨ mode = 3 then [PhraseSourceKind.random] else [])

/-- The sequence of phrase-source bodies executed by the `switch (phonemeMode)`
in `Grawlix::main` of the part_000 revision (lines 267-281), whose cases each
end in `break`: exactly the selected case body runs. -/
def mainSourcesPart000 (mode : Int) : List PhraseSourceKind :=
  if mode = 1 then [PhraseSourceKind.memory]
  else if mode = 2 then [PhraseSourceKind.grid]
  else if mode = 3 then [PhraseSourceKind.random]
  else []

/-- Observable actions of one phoneme transmission on the chip link. -/
inductive ChipEvent
  | dataBit (b : Nat)
  | latchHigh
  | latchLow
  | awaitAdvance
  | strobeHigh
  | hold (t : Nat)
  | strobeLow
deriving DecidableEq, BEq

/-- The bits of a byte most-significant first, as `shiftOut(..., MSBFIRST, data)`
clocks them onto the data line. -/
def bitsMSB (b : Nat) : List Nat :=
  (List.range 8).map (fun i => (b >>> (7 - i)) &&& 1)

/-- Trace of `Votrax::shiftUpdate(data)` (grawlix.ino lines 211-215): shift
the byte out MSB-first, then pulse the register latch high then low. -/
def shiftUpdateTrace (data : Nat) : List ChipEvent :=
  (bitsMSB data).map ChipEvent.dataBit ++ [ChipEvent.latchHigh, ChipEvent.latchLow]

/-- The `static int strobeTime = 150` of `Votrax::strobe` (line 200). -/
def strobeTime : Nat := 150

/-- Trace of `Votrax::strobe()` (grawlix.ino lines 199-208): raise the strobe
line, `delay(strobeTime)`, lower it. -/
def strobeTrace : List ChipEvent :=
  [ChipEvent.strobeHigh, ChipEvent.hold strobeTime, ChipEvent.strobeLow]

/-- Trace of `advListen()` as one blocking suspension point: it polls the
acknowledge line (and, per mode, button or gate) in `while (!advance) {}`. -/
def advListenTrace : List ChipEvent :=
  [ChipEvent.awaitAdvance]

/-- Trace of one iteration of the loop in `Grawlix::say` (grawlix.ino lines
242-249) for a phoneme with the given payload byte: `sc01.shiftUpdate(p.payload);
advListen(); sc01.strobe();`. -/
def sayStepTrace (payload : Nat) : List ChipEvent :=
  shiftUpdateTrace payload ++ advListenTrace ++ strobeTrace

/-- The advance decision computed by the `switch (advanceMode)` in
`Grawlix::advListen` of grawlix.ino (lines 224-234), whose cases have no
`break`: the local `volatile bool advance` starts uninitialized (`none`);
case 1 assigns `ar`, case 2's body runs when the mode is 1 or 2 and assigns
`ar && button`, case 3's body runs when the mode is 1, 2 or 3 and assigns
`ar && gate`.  `arUpdate()` is taken at its intended value, the acknowledge
line level (the C function computes the comparison but lacks a return
statement). -/
def advanceResolveIno (mode : Int) (ack btn g : Bool) : Option Bool :=
  let a0 : Option Bool := none
  let a1 := if mode = 1 then some ack else a0
  let a2 := if mode = 1 ∨ mode = 2 then some (ack && btn) else a1
  let a3 := if mode = 1 ∨ mode = 2 ∨ mode = 3 then some (ack && g) else a2
  a3

/-- The advance decision computed by `Grawlix::advListen` in the part_000
revision (lines 228-242), whose cases each end in `break`. -/
def advanceResolveBreaks (mode : Int) (ack btn g : Bool) : Option Bool :=
  if mode = 1 then some ack
  else if mode = 2 then some (ack && btn)
  else if mode = 3 then some (ack && g)
  else none

/-- Arduino `random(lo, hi)`: a value in `[lo, hi)`, modelled as `lo` plus the
current raw generator output reduced mod `hi - lo`. -/
def randomIn (lo hi raw : Nat) : Nat :=
  lo + raw % (hi - lo)

/-- The phrase length drawn by `setFromRandom` (grawlix.ino line 148):
`random(minLen, maxLen)` with `minLen = 4`, `maxLen = 10`.  The raw generator
outputs are modelled as a stream `r`; the per-draw `randomSeed(analogRead(rdm))`
re-entropy step is reflected in each draw consuming a fresh stream value. -/
def randomLength (r : Nat → Nat) : Nat :=
  randomIn 4 10 (r 0)

/-- The i-th symbol index drawn by `setFromRandom` (line 152):
`random(0, 63)`, whose upper bound is exclusive. -/
def randomSymbolDraw (r : Nat → Nat) (i : Nat) : Nat :=
  randomIn 0 63 (r (2 * i + 1))

/-- The i-th inflection drawn by `setFromRandom` (line 154):
`random(0, 3)`, whose upper bound is exclusive. -/
def randomInflectionDraw (r : Nat → Nat) (i : Nat) : Nat :=
  randomIn 0 3 (r (2 * i + 2))

/-- The numeric content produced by one `setFromRandom` call: the drawn
length, the symbol indices drawn into `symbols[0..length)` (as vocabulary
indices, before the `validSymbols[index]` lookup) and the inflections drawn
into `inflections[0..length)`. -/
structure RandomPhrase where
  length : Nat
  symbolIdxs : List Nat
  inflections : List Nat
deriving DecidableEq

/-- `Grawlix::Phrase::setFromRandom` (grawlix.ino lines 144-157) over a raw
generator stream `r`. -/
def setFromRandom (r : Nat → Nat) : RandomPhrase :=
  let len := randomLength r
  { length := len
  , symbolIdxs := (List.range len).map (randomSymbolDraw r)
  , inflections := (List.range len).map (randomInflectionDraw r) }

/-- A symbol-index value is a possible outcome of the random draw. -/
def symbolValuePossible (k : Nat) : Prop :=
  ∃ r i, randomSymbolDraw r i = k

/-- An inflection value is a possible outcome of the random draw. -/
def inflectionValuePossible (k : Nat) : Prop :=
  ∃ r i, randomInflectionDraw r i = k

/-- The `Grawlix::Phrase` buffer: `String symbols[32]`, `int inflections[32]`,
`int length = 32`.  The two arrays are modelled as total maps from the index. -/
structure Phrase where
  symbols : Nat → String
  inflections : Nat → Int
  length : Int

/-- A freshly constructed global `Phrase`: Arduino `String`s default to the
empty string, the `int` array of a zero-initialized global object is all
zero, and the `length` field initializer is 32. -/
def phraseInit : Phrase :=
  { symbols := fun _ => emptySym
  , inflections := fun _ => 0
  , length := 32 }

/-- `Grawlix::Phrase::setFromMemory` (grawlix.ino lines 122-132): the body
declares a local `int slot = 1`, the entire copy-from-slot block is commented
out, and only `debugPrint` runs — the phrase is returned unchanged. -/
def setFromMemory (p : Phrase) : Phrase :=
  p

/-- C integer division truncating toward zero, as Arduino `map` performs on
`long` operands. -/
def cdiv (a b : Int) : Int :=
  Int.tdiv a b

/-- Arduino `map(value, fromLow, fromHigh, toLow, toHigh)` =
`(value - fromLow) * (toHigh - toLow) / (fromHigh - fromLow) + toLow`, with
no clamping.  The `float` arguments of `setFromGrid` are truncated toward
zero by the implicit conversion to `long`, so the model takes `Int`. -/
def arduinoMap (v inMin inMax outMin outMax : Int) : Int :=
  cdiv ((v - inMin) * (outMax - outMin)) (inMax - inMin) + outMin

/-- `int xIndex = map(x, -1, 1, 0, 7)` of `setFromGrid` (grawlix.ino line 137). -/
def gridXIndex (x : Int) : Int :=
  arduinoMap x (-1) 1 0 7

/-- `int yIndex = map(y, -1, 1, 0, 4)` of `setFromGrid` (grawlix.ino line 138). -/
def gridYIndex (y : Int) : Int :=
  arduinoMap y (-1) 1 0 4

/-- The `vowelGrid[xi][yi]` access: `some` of the table entry when both
indices are within the declared 8x5 bounds, `none` for the out-of-bounds
read (undefined behavior in the C program). -/
def vowelGridLookup (xi yi : Int) : Option Nat :=
  if 0 ≤ xi ∧ xi < 8 ∧ 0 ≤ yi ∧ yi < 5 then
    some ((vowelGrid.getD xi.toNat []).getD yi.toNat 0)
  else none

/-- `Grawlix::Phrase::setFromGrid(x, y)` (grawlix.ino lines 135-141): set
`length = 1`, compute the two map indices, and write
`symbols[0] = validSymbols[vowelGrid[xIndex][yIndex]]`.  `inflections` is
never written.  The result is `none` when the grid access is out of bounds. -/
def setFromGrid (p : Phrase) (x y : Int) : Option Phrase :=
  let xi := gridXIndex x
  let yi := gridYIndex y
  match vowelGridLookup xi yi with
  | some code =>
      some { p with
              length := 1
            , symbols := fun j => if j = 0 then validSymbols.getD code emptySym else p.symbols j }
  | none => none

/-- The inflection at slot 0 of the phrase a `setFromGrid` call emits, or 99
when the call hits the out-of-bounds read. -/
def gridEmittedInflection (p : Phrase) (x y : Int) : Int :=
  match setFromGrid p x y with
  | some q => q.inflections 0
  | none => 99

/-- A prior phrase whose slot-0 inflection is 2 (e.g. left over from a Random
cycle), used as a concrete starting state for `setFromGrid`. -/
def phraseWithInfl2 : Phrase :=
  { phraseInit with inflections := fun j => if j = 0 then 2 else 0 }

/-- Reduction of a C `uint32_t` value. -/
def u32 (n : Nat) : Nat :=
  n % 2 ^ 32

/-- A C `uint32_t` decrement `n - 1`, wrapping at zero. -/
def u32sub1 (n : Nat) : Nat :=
  (n + 2 ^ 32 - 1) % 2 ^ 32

/-- `uint32_t kHz = 10^3` of HardwarePWM (part_000 line 306): C `^` is XOR,
so this is 10 xor 3 = 9, not 1000. -/
def pwmKHz : Nat := 10 ^^^ 3

/-- `uint32_t MHz = 10^6` of HardwarePWM (part_000 line 307): 10 xor 6 = 12. -/
def pwmMHz : Nat := 10 ^^^ 6

/-- `uint32_t default_freq = 720 * kHz` (part_000 line 310) = 6480. -/
def defaultFreq : Nat := 720 * pwmKHz

/-- `HardwarePWM::freqToTicks(freq)` (part_000 lines 365-369):
`(system_clock_rate / freq) - 1` in uint32 arithmetic (C unsigned division
by zero is taken at the ARM `udiv` result 0, after which the decrement
wraps). -/
def freqToTicks (clockRate freq : Nat) : Nat :=
  u32sub1 (clockRate / freq)

/-- The HardwarePWM fields the claims observe: the software shadow values
`target_freq` and `target_pw`, and the timer registers ARR (period) and CCR1
(duty-cycle compare). -/
structure PWMState where
  targetFreq : Nat
  targetPw : Nat
  arr : Nat
  ccr1 : Nat
deriving DecidableEq

/-- `HardwarePWM` construction plus `Init()` (part_000 lines 306-363) for a
given `system_clock_rate`: `default_counter_period = clockRate/default_freq - 1`
becomes the timer Period (ARR); `uint32_t default_pw = 0.5` truncates to 0, so
`default_pw_period = default_counter_period * 0 = 0` becomes the compare
value (CCR1); `target_freq = default_freq` and `uint32_t target_pw = 0.5`
truncates to 0. -/
def pwmInit (clockRate : Nat) : PWMState :=
  let period := u32sub1 (clockRate / defaultFreq)
  { targetFreq := defaultFreq
  , targetPw := 0
  , arr := period
  , ccr1 := u32 (period * 0) }

/-- `HardwarePWM::setFreq(freq_knob, voct_val)` (part_000 lines 371-390):
the mapped `knob` and the 37-entry multiplier lookup are computed but unused;
`target_freq = (720 * MHz) * freq_knob * voct_val` in uint32 arithmetic
(720 * MHz = 8640 by the XOR above); then `ARR = freqToTicks(target_freq)`
and `CCR1 = target_ticks * target_pw`. -/
def setFreq (clockRate : Nat) (s : PWMState) (freqKnob voctVal : Nat) : PWMState :=
  let tf := u32 (720 * pwmMHz * freqKnob * voctVal)
  let ticks := freqToTicks clockRate tf
  let pwPeriod := u32 (ticks * s.targetPw)
  { s with targetFreq := tf, arr := ticks, ccr1 := pwPeriod }

/-- `HardwarePWM::setPulseWidth(pw)` (part_000 lines 392-397):
`target_pw = pw; CCR1 = (freqToTicks(target_freq) * target_pw) - 1` in uint32
arithmetic (ARR is not touched). -/
def setPulseWidth (clockRate : Nat) (s : PWMState) (pw : Nat) : PWMState :=
  let s1 := { s with targetPw := pw }
  let pwPeriod := u32sub1 (u32 (freqToTicks clockRate s1.targetFreq * pw))
  { s1 with ccr1 := pwPeriod }

/-- A representative `System::GetPClk2Freq()` value for the Daisy platform
(200 MHz), the model parameter standing for the external clock-rate query. -/
def daisyClockRate : Nat := 200000000

end Grawlix

namespace Grawlix

/-- C1.  The `Phoneme` constructor does not perform the canonical vocabulary
lookup the claim describes: for symbol "EH3" (canonical index 0) with
inflection 1 the code produces payload 67 = (1 << 6) | 3 — the final loop
iteration compares 1 with the out-of-range character `symbol[63]` (= 0) and
falls back to 3 — while the claimed encoding is 64 = (1 << 6) | 0.  Worse,
with inflection 0 the same symbol gets symbolIndex 63 ("STOP"), because
0 equals the out-of-range character value. -/
theorem c1_phoneme_payload_diverges :
    phonemePayload symEH3 1 = 67 ∧
    specSymbolIndex symEH3 = 0 ∧
    specPayload symEH3 1 = 64 ∧
    phonemePayload symEH3 1 ≠ specPayload symEH3 1 ∧
    phonemeSymbolIndex symEH3 0 = 63 := by decide

/-- C9.  `updateMode` modifies no program state: the mode argument is passed
by value and only the local copy is assigned, so `phonemeMode`,
`advanceMode`, `memoryIndex` — and the whole object — are unchanged by the
call, for every prior state, mode argument and pair of switch readings. -/
theorem c9_updateMode_frame (s : GrawlixState) (mode : Int) (a b : Bool) :
    (updateMode s mode a b).1.phonemeMode = s.phonemeMode ∧
    (updateMode s mode a b).1.advanceMode = s.advanceMode ∧
    (updateMode s mode a b).1.memoryIndex = s.memoryIndex ∧
    (updateMode s mode a b).1 = s :=
  ⟨rfl, rfl, rfl, rfl⟩

/-- C2.  Resolving a mode from (false,false) does yield 1 on the local copy,
but the resolved value never becomes the mode used for the subsequent
decision: with `phonemeMode = 5` and both switches low, `main` still
dispatches on 5 (so no phrase-source case runs at all), not on the resolved
value 1.  `updateMode` assigns only its by-value parameter and returns
nothing. -/
theorem c2_resolved_mode_not_used :
    updateModeLocal 5 false false = 1 ∧
    (updateMode ⟨5, 5, 0⟩ 5 false false).2 = 1 ∧
    mainModeUsed ⟨5, 5, 0⟩ false false = 5 ∧
    mainModeUsed ⟨5, 5, 0⟩ false false ≠ updateModeLocal 5 false false := by decide

/-- C3.  With phoneme-source mode 1, `main` in grawlix.ino does not generate
the phrase through exactly one PhraseSource variant: the breakless switch
runs `setFromMemory`, `setFromGrid` and `setFromRandom` in sequence (so the
phrase finally in the buffer is the Random one), while the part_000 revision,
whose cases break, runs only the Memory variant as the claim states. -/
theorem c3_dispatch_fallthrough :
    mainSourcesIno 1 =
      [PhraseSourceKind.memory, PhraseSourceKind.grid, PhraseSourceKind.random] ∧
    (mainSourcesIno 1).length ≠ 1 ∧
    mainSourcesIno 2 = [PhraseSourceKind.grid, PhraseSourceKind.random] ∧
    mainSourcesPart000 1 = [PhraseSourceKind.memory] ∧
    mainSourcesPart000 2 = [PhraseSourceKind.grid] ∧
    mainSourcesPart000 3 = [PhraseSourceKind.random] := by decide

/-- C4 counterexample.  In the transmission trace of a phoneme (payload 67),
the driver blocks on the advance/acknowledge wait BEFORE the strobe is
raised, so the claimed order — strobe first, and only after strobing wait on
the acknowledge line — is false: the wait does not come after the strobe
pulse ends, it precedes the strobe going high. -/
theorem c4_await_precedes_strobe :
    (sayStepTrace 67).indexOf ChipEvent.awaitAdvance <
      (sayStepTrace 67).indexOf ChipEvent.strobeHigh ∧
    ¬ ((sayStepTrace 67).indexOf ChipEvent.strobeLow <
        (sayStepTrace 67).indexOf ChipEvent.awaitAdvance) := by decide

/-- C4 amended.  For every phoneme payload, one `say` iteration performs, in
order: the eight payload bits shifted out most-significant-bit first, the
register latch raised then lowered, the blocking wait on the
advance/acknowledge condition, and only then the strobe raised, held for the
150 time-unit pulse width, and lowered. -/
theorem c4_transmission_order (payload : Nat) :
    sayStepTrace payload =
      (bitsMSB payload).map ChipEvent.dataBit ++
        [ChipEvent.latchHigh, ChipEvent.latchLow, ChipEvent.awaitAdvance,
         ChipEvent.strobeHigh, ChipEvent.hold 150, ChipEvent.strobeLow] := rfl

/-- C5.  In grawlix.ino's `advListen` the breakless switch makes modes 1 and
2 fall through to the gate case: with mode 1 (Auto), ack high and gate low
the code computes `ack && gate` = false (and spins) where the claim requires
advance; the part_000 revision with breaks matches the claimed table, and in
both revisions mode 3 (Gate) never permits advance while the gate is low. -/
theorem c5_advance_gate_fallthrough :
    advanceResolveIno 1 true true false = some false ∧
    advanceResolveIno 2 true true false = some false ∧
    advanceResolveBreaks 1 true true false = some true ∧
    advanceResolveBreaks 2 true true false = some true ∧
    advanceResolveBreaks 2 true false true = some false ∧
    (∀ ack btn : Bool,
      advanceResolveIno 3 ack btn false ≠ some true ∧
      advanceResolveBreaks 3 ack btn false ≠ some true) := by decide

/-- C6 counterexample.  Symbol index 63 and inflection 3 are NOT possible
outcomes of the random draws: `random(0, 63)` and `random(0, 3)` have
exclusive upper bounds, so the claim that every index in [0,63] and every
inflection in [0,3] is a possible outcome is false. -/
theorem c6_extremes_impossible :
    ¬ symbolValuePossible 63 ∧ ¬ inflectionValuePossible 3 := by
  constructor
  · rintro ⟨r, i, h⟩
    have hlt : r (2 * i + 1) % 63 < 63 := Nat.mod_lt _ (by norm_num)
    simp only [randomSymbolDraw, randomIn, Nat.sub_zero, Nat.zero_add] at h
    omega
  · rintro ⟨r, i, h⟩
    have hlt : r (2 * i + 2) % 3 < 3 := Nat.mod_lt _ (by norm_num)
    simp only [randomInflectionDraw, randomIn, Nat.sub_zero, Nat.zero_add] at h
    omega

/-- C6 amended.  Every Random-generated phrase has length in [4,10); each of
its symbol indices lies in [0,62] and each value 0..62 is a possible outcome
(`random(0, 63)` excludes 63); each of its inflections lies in [0,2] and each
value 0..2 is a possible outcome (`random(0, 3)` excludes 3). -/
theorem c6_random_phrase_ranges :
    (∀ r, 4 ≤ (setFromRandom r).length ∧ (setFromRandom r).length < 10) ∧
    (∀ r k, k ∈ (setFromRandom r).symbolIdxs → k ≤ 62) ∧
    (∀ r k, k ∈ (setFromRandom r).inflections → k ≤ 2) ∧
    (∀ k, k ≤ 62 → symbolValuePossible k) ∧
    (∀ k, k ≤ 2 → inflectionValuePossible k) := by
  refine ⟨?_, ?_, ?_, ?_, ?_⟩
  · intro r
    have hlt : r 0 % 6 < 6 := Nat.mod_lt _ (by norm_num)
    simp only [setFromRandom, randomLength, randomIn]
    omega
  · intro r k hk
    simp only [setFromRandom, List.mem_map, List.mem_range] at hk
    obtain ⟨i, _, rfl⟩ := hk
    have hlt : r (2 * i + 1) % 63 < 63 := Nat.mod_lt _ (by norm_num)
    simp only [randomSymbolDraw, randomIn]
    omega
  · intro r k hk
    simp only [setFromRandom, List.mem_map, List.mem_range] at hk
    obtain ⟨i, _, rfl⟩ := hk
    have hlt : r (2 * i + 2) % 3 < 3 := Nat.mod_lt _ (by norm_num)
    simp only [randomInflectionDraw, randomIn]
    omega
  · intro k hk
    refine ⟨fun _ => k, 0, ?_⟩
    simp only [randomSymbolDraw, randomIn, Nat.sub_zero, Nat.zero_add]
    exact Nat.mod_eq_of_lt (by omega)
  · intro k hk
    refine ⟨fun _ => k, 0, ?_⟩
    simp only [randomInflectionDraw, randomIn, Nat.sub_zero, Nat.zero_add]
    exact Nat.mod_eq_of_lt (by omega)

/-- C6 witness: the amended theorem applied at concrete inputs — the all-zero
generator stream and the boundary values 62 and 2. -/
theorem c6_random_phrase_ranges_witness :
    (4 ≤ (setFromRandom (fun _ => 0)).length ∧ (setFromRandom (fun _ => 0)).length < 10) ∧
    (0 : Nat) ≤ 62 ∧
    (0 : Nat) ≤ 2 ∧
    symbolValuePossible 62 ∧
    inflectionValuePossible 2 :=
  ⟨c6_random_phrase_ranges.1 (fun _ => 0),
   c6_random_phrase_ranges.2.1 (fun _ => 0) 0 (by decide),
   c6_random_phrase_ranges.2.2.1 (fun _ => 0) 0 (by decide),
   c6_random_phrase_ranges.2.2.2.1 62 (by norm_num),
   c6_random_phrase_ranges.2.2.2.2 2 (by norm_num)⟩

/-- C7.  Grid quantization does not clamp: `map` extrapolates linearly, so
input x = 2 (outside [-1,1]) yields xIndex = 10 and the `vowelGrid[10][2]`
read is out of bounds — the lookup is NOT always in bounds and `setFromGrid`
hits undefined behavior.  The in-range corners do map as claimed
((-1,-1) to vowelGrid[0][0] = 44 and (1,1) to vowelGrid[7][4] = 45), but the
emitted inflection is not 0 either: `inflections[0]` is never written, so a
prior value 2 survives an in-range (0,0) call. -/
theorem c7_grid_not_clamped :
    gridXIndex 2 = 10 ∧
    gridYIndex 0 = 2 ∧
    vowelGridLookup (gridXIndex 2) (gridYIndex 0) = none ∧
    (setFromGrid phraseInit 2 0).isNone = true ∧
    gridXIndex (-1) = 0 ∧ gridYIndex (-1) = 0 ∧
    gridXIndex 1 = 7 ∧ gridYIndex 1 = 4 ∧
    vowelGridLookup 0 0 = some 44 ∧
    vowelGridLookup 7 4 = some 45 ∧
    gridEmittedInflection phraseWithInfl2 0 0 = 2 := by decide

/-- C8.  HardwarePWM does not keep CCR1 at or below ARR: after `Init` (with
the 200 MHz model clock the default period is 30863 and CCR1 = 0 ≤ ARR),
`setPulseWidth(0)` computes `(ticks * 0) - 1`, which wraps to
4294967295 > ARR = 30863; `setPulseWidth(2)` gives CCR1 = 61725 > 30863;
and after a `setPulseWidth(3)`, `setFreq(1, 1)` writes
CCR1 = 3 * ticks = 69441 > ARR = ticks = 23147.  No clamping of the compare
value to the period exists anywhere in the class. -/
theorem c8_ccr1_exceeds_arr :
    (pwmInit daisyClockRate).ccr1 ≤ (pwmInit daisyClockRate).arr ∧
    (pwmInit daisyClockRate).arr = 30863 ∧
    (setPulseWidth daisyClockRate (pwmInit daisyClockRate) 0).ccr1 = 4294967295 ∧
    ¬ ((setPulseWidth daisyClockRate (pwmInit daisyClockRate) 0).ccr1 ≤
        (setPulseWidth daisyClockRate (pwmInit daisyClockRate) 0).arr) ∧
    (setPulseWidth daisyClockRate (pwmInit daisyClockRate) 2).ccr1 = 61725 ∧
    ¬ ((setPulseWidth daisyClockRate (pwmInit daisyClockRate) 2).ccr1 ≤
        (setPulseWidth daisyClockRate (pwmInit daisyClockRate) 2).arr) ∧
    (setFreq daisyClockRate (setPulseWidth daisyClockRate (pwmInit daisyClockRate) 3) 1 1).ccr1 = 69441 ∧
    ¬ ((setFreq daisyClockRate (setPulseWidth daisyClockRate (pwmInit daisyClockRate) 3) 1 1).ccr1 ≤
        (setFreq daisyClockRate (setPulseWidth daisyClockRate (pwmInit daisyClockRate) 3) 1 1).arr) := by
  decide

/-- C10.  `setFromMemory` leaves the phrase completely unchanged — symbols,
inflections and length keep their prior values for every phrase — and the
initial buffer has length 32 with default-initialized entries (empty symbol
strings, zero inflections). -/
theorem c10_setFromMemory_frame (p : Phrase) :
    (setFromMemory p).symbols = p.symbols ∧
    (setFromMemory p).inflections = p.inflections ∧
    (setFromMemory p).length = p.length ∧
    setFromMemory p = p ∧
    phraseInit.length = 32 ∧
    (∀ i, phraseInit.inflections i = 0) ∧
    (∀ i, phraseInit.symbols i = emptySym) :=
  ⟨rfl, rfl, rfl, rfl, rfl, fun _ => rfl, fun _ => rfl⟩

end Grawlix
